import Mathlib

/-!
Verification development for a penguin-species inference service.

The service (src/main.py) loads an XGBoost classifier at startup
(remote object store first, local file fallback), validates a JSON
payload of four non-negative numeric features with a pydantic model,
and serves a single POST /predict endpoint returning the predicted
class index.  src/test_api.py contains a second copy of the app whose
handler additionally guards against an absent model with a 500 error.
src/train.py fixes the feature-column order used for training.

We embed JSON payloads as association lists of string keys to JSON
values, the pydantic validation pipeline as a total function to
`Option`, the classifier as an opaque deterministic function into the
three trained class indices, and the request loop as explicit state
passing.  Python floats are modelled by `PyFloat`: an exact rational
for the finite values (idealizing IEEE rounding, which none of the
claims depend on) together with the two infinities and nan, so the
framework's full numeric-string coercion (whitespace, sign, exponent
notation, underscore separators, inf/infinity/nan) and its comparison
semantics (nan comparing false against everything) are represented.
-/

/-- A JSON value, as decoded from a request body. -/
inductive Json where
  | num (q : ℚ)
  | str (s : String)
  | bool (b : Bool)
  | null
  | arr (elems : List Json)
  | obj (fields : List (String × Json))

/-- A decoded JSON object body: an association list of keys to values. -/
abbrev Payload : Type := List (String × Json)

/-- Look a key up in a payload (first occurrence wins). -/
def lookupKey (p : Payload) (k : String) : Option Json :=
  (p.find? (fun kv => kv.1 == k)).map Prod.snd

/-- A Python float as the validation layer observes it: a finite
value (kept exact as a rational), one of the two infinities, or nan. -/
inductive PyFloat where
  | finite (q : ℚ)
  | inf
  | negInf
  | nan
deriving DecidableEq, Repr

/-- Negation of a Python float (the sign of nan is not observable). -/
def PyFloat.negate : PyFloat → PyFloat
  | .finite q => .finite (-q)
  | .inf => .negInf
  | .negInf => .inf
  | .nan => .nan

/-- Strict comparison of Python floats: nan compares false against
everything, -inf is below and inf above every finite value. -/
def PyFloat.lt : PyFloat → PyFloat → Bool
  | .nan, _ => false
  | _, .nan => false
  | .finite a, .finite b => decide (a < b)
  | .finite _, .inf => true
  | .finite _, .negInf => false
  | .negInf, .negInf => false
  | .negInf, _ => true
  | .inf, _ => false

/-- Non-strict comparison of Python floats: nan compares false
against everything, including itself. -/
def PyFloat.le : PyFloat → PyFloat → Bool
  | .nan, _ => false
  | _, .nan => false
  | .finite a, .finite b => decide (a ≤ b)
  | .finite _, .inf => true
  | .finite _, .negInf => false
  | .negInf, _ => true
  | .inf, .inf => true
  | .inf, _ => false

instance : LT PyFloat := ⟨fun a b => PyFloat.lt a b = true⟩

instance : LE PyFloat := ⟨fun a b => PyFloat.le a b = true⟩

instance (a b : PyFloat) : Decidable (a < b) :=
  inferInstanceAs (Decidable (PyFloat.lt a b = true))

instance (a b : PyFloat) : Decidable (a ≤ b) :=
  inferInstanceAs (Decidable (PyFloat.le a b = true))

instance : Zero PyFloat := ⟨.finite 0⟩

/-- Value of a digit string, most significant first (helper for the
numeric-string coercion below). -/
def natOfDigits (cs : List Char) : Nat :=
  cs.foldl (fun a c => a * 10 + (c.toNat - 48)) 0

/-- A digit group of a Python numeric string: digits with single
underscores allowed only between digits (so 1_000 is fine but _1, 1_
and 1__0 are not).  Returns the digits with the underscores removed,
`none` when the characters violate the rule; the empty group is
accepted and left to the caller (an integer or fractional part may be
empty, the whole mantissa may not). -/
def underscoredTail : List Char → Option (List Char)
  | [] => some []
  | c :: rest =>
      if c.isDigit then (underscoredTail rest).map (fun t => c :: t)
      else if c == '_' then
        match rest with
        | [] => none
        | r :: t =>
            if r.isDigit then (underscoredTail t).map (fun u => r :: u)
            else none
      else none

/-- A whole digit group: must start with a digit when nonempty. -/
def underscoredDigits : List Char → Option (List Char)
  | [] => some []
  | c :: rest =>
      if c.isDigit then (underscoredTail rest).map (fun t => c :: t)
      else none

/-- Parse the digit part of an exponent: a nonempty digit group. -/
def parseExpDigits (cs : List Char) : Option Nat := do
  let d ← underscoredDigits cs
  if d.isEmpty then none else pure (natOfDigits d)

/-- Parse an exponent (the characters after the e/E marker): an
optional sign followed by a nonempty digit group. -/
def parseExponent (cs : List Char) : Option ℤ :=
  match cs with
  | [] => none
  | c :: rest =>
      if c == '-' then (parseExpDigits rest).map (fun n => -(n : ℤ))
      else if c == '+' then (parseExpDigits rest).map (fun n => (n : ℤ))
      else (parseExpDigits cs).map (fun n => (n : ℤ))

/-- Parse a mantissa: an integer digit group, optionally followed by
a dot and a fractional digit group, with at least one digit in
total (so 1., .5 and 1_000.25 are accepted, a bare dot is not). -/
def parseMantissa (cs : List Char) : Option ℚ :=
  let ip := cs.takeWhile (fun c => !(c == '.'))
  let fpRest := cs.dropWhile (fun c => !(c == '.'))
  match fpRest with
  | [] => do
      let d ← underscoredDigits ip
      if d.isEmpty then none else pure ((natOfDigits d : ℚ))
  | _ :: fp => do
      let di ← underscoredDigits ip
      let df ← underscoredDigits fp
      if di.isEmpty && df.isEmpty then none
      else pure ((natOfDigits di : ℚ) + (natOfDigits df : ℚ) / (10 : ℚ) ^ df.length)

/-- Parse an unsigned decimal literal with an optional e/E exponent,
exactly (the value is kept as a rational instead of being rounded to
the nearest binary float). -/
def parseDecimal (cs : List Char) : Option ℚ :=
  let mant := cs.takeWhile (fun c => !(c == 'e' || c == 'E'))
  let expRest := cs.dropWhile (fun c => !(c == 'e' || c == 'E'))
  match expRest with
  | [] => parseMantissa mant
  | _ :: expPart => do
      let m ← parseMantissa mant
      let e ← parseExponent expPart
      pure (m * (10 : ℚ) ^ e)

/-- The spellings of infinity Python's float accepts. -/
def infChars : List Char := ['i', 'n', 'f']

/-- The long spelling of infinity. -/
def infinityChars : List Char := ['i', 'n', 'f', 'i', 'n', 'i', 't', 'y']

/-- The spelling of nan. -/
def nanChars : List Char := ['n', 'a', 'n']

/-- Parse the body of a Python float string after the optional sign:
inf, infinity and nan case-insensitively, else a decimal literal. -/
def parseUnsignedPyFloat (cs : List Char) : Option PyFloat :=
  let lower := cs.map Char.toLower
  if lower = infChars ∨ lower = infinityChars then some .inf
  else if lower = nanChars then some .nan
  else (parseDecimal cs).map PyFloat.finite

/-- Python's float applied to a string: strip surrounding whitespace,
read an optional sign, then inf/infinity/nan or a decimal literal
with optional fraction, exponent and underscore digit separators. -/
def parsePyFloat (s : String) : Option PyFloat :=
  let t := s.toList.dropWhile Char.isWhitespace
  let cs := (t.reverse.dropWhile Char.isWhitespace).reverse
  match cs with
  | [] => none
  | c :: rest =>
      if c == '-' then (parseUnsignedPyFloat rest).map PyFloat.negate
      else if c == '+' then parseUnsignedPyFloat rest
      else parseUnsignedPyFloat cs

/-- Coercion of a JSON value to a `float` field, as performed by the
validation framework (pydantic, through the v1-style `validator` API
the code uses) for the declared `float = Field(..., ge=0)` fields:
JSON numbers are accepted, strings are accepted exactly when Python's
float can read them (including exponent notation, surrounding
whitespace, underscore separators and inf/infinity/nan), booleans are
accepted as 1 and 0 (bool is an int subclass in Python), and null,
arrays and objects are rejected. -/
def coerceFloat : Json → Option PyFloat
  | .num q => some (.finite q)
  | .str s => parsePyFloat s
  | .bool b => some (.finite (if b then 1 else 0))
  | _ => none

/-- Key of the first required feature field. -/
def kBillLength : String := "bill_length_mm"

/-- Key of the second required feature field. -/
def kBillDepth : String := "bill_depth_mm"

/-- Key of the third required feature field. -/
def kFlipper : String := "flipper_length_mm"

/-- Key of the fourth required feature field. -/
def kMass : String := "body_mass_g"

/-- The four required fields of `PenguinFeatures` (src/main.py), in
declaration order, which is also the order the handler assembles the
feature vector in. -/
def requiredFields : List String := [kBillLength, kBillDepth, kFlipper, kMass]

/-- Validation of one required field of `PenguinFeatures`
(src/main.py): the key must be present, its value must coerce to a
float, and the float must pass `Field(..., ge=0)` (nan fails this
check, inf passes it) and then the `check_not_negative` validator,
which rejects `v < 0`.  Returns the validated value, or `none` on
any failure. -/
def fieldValue (p : Payload) (k : String) : Option PyFloat :=
  match lookupKey p k with
  | none => none
  | some v =>
      match coerceFloat v with
      | none => none
      | some q =>
          if 0 ≤ q then
            if q < 0 then none else some q
          else none

/-- Validation of a whole request body against `PenguinFeatures`: all
four required fields must validate, else the request is rejected. -/
def validate (p : Payload) : Option (PyFloat × PyFloat × PyFloat × PyFloat) :=
  match fieldValue p kBillLength, fieldValue p kBillDepth,
        fieldValue p kFlipper, fieldValue p kMass with
  | some a, some b, some c, some d => some (a, b, c, d)
  | _, _, _, _ => none

/-- The number of penguin species the training script's label encoder
produces (src/train.py: the penguins dataset has three species). -/
def numClasses : Nat := 3

/-- The loaded classifier: an opaque, deterministic, immutable
function from a feature vector to one of the trained class indices
(src/main.py: the `xgb.XGBClassifier` loaded once at startup). -/
structure Model where
  predict : List PyFloat → Fin numClasses

/-- The observable outcome of one request to POST /predict: the HTTP
status, the returned prediction (when any), and the feature vector
passed to the classifier (`none` when the classifier was not
invoked). -/
structure PredictOutcome where
  status : Nat
  prediction : Option ℤ
  invokedOn : Option (List PyFloat)
deriving DecidableEq, Repr

namespace Main

/-- The POST /predict operation of src/main.py: the framework
validates the body against `PenguinFeatures` (422 on failure, before
the handler runs); the handler assembles the features into the array
`[[bill_length_mm, bill_depth_mm, flipper_length_mm, body_mass_g]]`,
calls `model.predict` and returns `{"prediction": int(pred)}` with
status 200. -/
def predict (model : Model) (p : Payload) : PredictOutcome :=
  match validate p with
  | none => ⟨422, none, none⟩
  | some (a, b, c, d) =>
      let data : List PyFloat := [a, b, c, d]
      let pred := model.predict data
      ⟨200, some ((pred.val : ℤ)), some data⟩

end Main

namespace TestApi

/-- The POST /predict operation of src/test_api.py: identical in
observable validation behaviour to the main app's (its validator runs
with pre=True and only compares int/float instances, but every value
it lets through is then caught by the same coercion and ge=0 checks),
except that the handler first checks whether the module's `model` is
`None` and, if so, raises `HTTPException(status_code=500)` without
attempting prediction. -/
def predict (model : Option Model) (p : Payload) : PredictOutcome :=
  match validate p with
  | none => ⟨422, none, none⟩
  | some (a, b, c, d) =>
      match model with
      | none => ⟨500, none, none⟩
      | some m =>
          let data : List PyFloat := [a, b, c, d]
          let pred := m.predict data
          ⟨200, some ((pred.val : ℤ)), some data⟩

end TestApi

/-- The whole in-process state shared across requests: just the model
loaded at startup (src/main.py keeps it in a module-level variable and
never mutates it). -/
structure ServerState where
  model : Model

/-- Processing of one request: produce the outcome and the state the
process is left in. -/
def step (st : ServerState) (p : Payload) : PredictOutcome × ServerState :=
  (Main.predict st.model p, st)

/-- Processing of a sequence of requests, threading the process state
through. -/
def serve (st : ServerState) : List Payload → List PredictOutcome
  | [] => []
  | p :: ps => (step st p).1 :: serve (step st p).2 ps

/-- Errors the model loader distinguishes. -/
inductive LoadError where
  | configMissing
  | gcsFailure
deriving DecidableEq, Repr

/-- `download_model_from_gcs` of src/main.py: reads the two
environment variables; if either is unset or empty (`not bucket_name
or not blob_name`) raises `ValueError`; otherwise downloads the blob
to a temp file (the interaction with the object store is the oracle
`fetch`, which may fail with a network or missing-object error) and
returns its path. -/
def download_model_from_gcs (bucket blob : Option String)
    (fetch : String → String → Except Unit String) : Except LoadError String :=
  match bucket, blob with
  | some b, some l =>
      if b.isEmpty || l.isEmpty then .error .configMissing
      else
        match fetch b l with
        | .ok path => .ok path
        | .error _ => .error .gcsFailure
  | _, _ => .error .configMissing

/-- The fixed local fallback path (src/main.py). -/
def localModelFile : String := "penguin_model.json"

/-- The result of process startup: either the process starts, having
resolved a model artifact path, or it aborts. -/
inductive StartupResult where
  | started (modelPath : String)
  | aborted
deriving DecidableEq, Repr

/-- The module-level startup logic of src/main.py: try
`download_model_from_gcs`; on any exception fall back to the local
file `penguin_model.json` when it exists; otherwise raise
`RuntimeError` so the process never starts serving. -/
def startup (bucket blob : Option String)
    (fetch : String → String → Except Unit String)
    (localExists : Bool) : StartupResult :=
  match download_model_from_gcs bucket blob fetch with
  | .ok path => .started path
  | .error _ => if localExists then .started localModelFile else .aborted

/-- The feature columns src/train.py selects from the dataset, in
order (`penguins[[...]]`). -/
def trainFeatureColumns : List String :=
  [kBillLength, kBillDepth, kFlipper, kMass]

/-- The order in which the src/main.py handler assembles the request
fields into the feature vector. -/
def apiFeatureOrder : List String := requiredFields

/-- A required field is valid in a payload when it is present, its
value coerces to a float, and the float is ≥ 0. -/
def validField (p : Payload) (k : String) : Prop :=
  ∃ v q, lookupKey p k = some v ∧ coerceFloat v = some q ∧ 0 ≤ q

/-! ## Helper lemmas -/

lemma PyFloat.not_lt_zero (q : PyFloat) (h : (0 : PyFloat) ≤ q) :
    ¬ q < (0 : PyFloat) := by
  intro hc
  have h2 : PyFloat.le (.finite 0) q = true := h
  have hc2 : PyFloat.lt q (.finite 0) = true := hc
  cases q <;> simp [PyFloat.le, PyFloat.lt] at h2 hc2
  exact absurd hc2 (not_lt.mpr h2)

lemma fieldValue_isSome_of_validField (p : Payload) (k : String)
    (h : validField p k) : ∃ q, fieldValue p k = some q ∧ 0 ≤ q := by
  obtain ⟨v, q, hv, hq, hnn⟩ := h
  refine ⟨q, ?_, hnn⟩
  simp [fieldValue, hv, hq, hnn, PyFloat.not_lt_zero q hnn]

lemma validate_eq_some (p : Payload) (a b c d : PyFloat)
    (h1 : fieldValue p kBillLength = some a)
    (h2 : fieldValue p kBillDepth = some b)
    (h3 : fieldValue p kFlipper = some c)
    (h4 : fieldValue p kMass = some d) :
    validate p = some (a, b, c, d) := by
  unfold validate
  rw [h1, h2, h3, h4]

lemma validate_eq_none_of_field (p : Payload) (k : String)
    (hk : k ∈ requiredFields) (h : fieldValue p k = none) :
    validate p = none := by
  have hk4 : k = kBillLength ∨ k = kBillDepth ∨ k = kFlipper ∨ k = kMass := by
    simpa [requiredFields] using hk
  rcases hk4 with rfl | rfl | rfl | rfl <;>
    cases h1 : fieldValue p kBillLength <;>
    cases h2 : fieldValue p kBillDepth <;>
    cases h3 : fieldValue p kFlipper <;>
    cases h4 : fieldValue p kMass <;>
    simp_all [validate]

lemma lookupKey_append_extra (p extra : Payload) (k : String)
    (hk : k ∈ requiredFields)
    (hext : ∀ kv ∈ extra, kv.1 ∉ requiredFields) :
    lookupKey (p ++ extra) k = lookupKey p k := by
  have hnone : extra.find? (fun kv => kv.1 == k) = none := by
    rw [List.find?_eq_none]
    intro kv hkv
    have hne : kv.1 ≠ k := fun he => hext kv hkv (he ▸ hk)
    simpa using hne
  unfold lookupKey
  rw [List.find?_append, hnone, Option.or_none]

lemma fieldValue_append_extra (p extra : Payload) (k : String)
    (hk : k ∈ requiredFields)
    (hext : ∀ kv ∈ extra, kv.1 ∉ requiredFields) :
    fieldValue (p ++ extra) k = fieldValue p k := by
  unfold fieldValue
  rw [lookupKey_append_extra p extra k hk hext]

lemma validate_append_extra (p extra : Payload)
    (hext : ∀ kv ∈ extra, kv.1 ∉ requiredFields) :
    validate (p ++ extra) = validate p := by
  unfold validate
  rw [fieldValue_append_extra p extra kBillLength (by simp [requiredFields]) hext,
      fieldValue_append_extra p extra kBillDepth (by simp [requiredFields]) hext,
      fieldValue_append_extra p extra kFlipper (by simp [requiredFields]) hext,
      fieldValue_append_extra p extra kMass (by simp [requiredFields]) hext]

lemma predict_of_validate_some (m : Model) (p : Payload) (a b c d : PyFloat)
    (h : validate p = some (a, b, c, d)) :
    Main.predict m p =
      ⟨200, some ((m.predict [a, b, c, d]).val : ℤ), some [a, b, c, d]⟩ := by
  unfold Main.predict
  rw [h]

lemma predict_of_validate_none (m : Model) (p : Payload)
    (h : validate p = none) :
    Main.predict m p = ⟨422, none, none⟩ := by
  unfold Main.predict
  rw [h]

/-! ## Concrete sample inputs (used by witnesses) -/

/-- A classifier that always answers class 0 (any concrete `Model`
works for the contract-level properties below). -/
def sampleModel : Model := ⟨fun _ => ⟨0, by decide⟩⟩

/-- The valid sample body of src/test_api.py
`test_predict_endpoint_valid_input` (values rounded to integers to
keep kernel evaluation cheap; validation only compares with 0). -/
def samplePayload : Payload :=
  [(kBillLength, Json.num 39), (kBillDepth, Json.num 18),
   (kFlipper, Json.num 181), (kMass, Json.num 3750)]

/-- The non-numeric string of src/test_api.py
`test_predict_endpoint_invalid_type`. -/
def invalidText : String := "invalid"

/-- Sample body with a non-numeric `bill_length_mm`. -/
def invalidTypePayload : Payload :=
  [(kBillLength, Json.str invalidText), (kBillDepth, Json.num 18),
   (kFlipper, Json.num 181), (kMass, Json.num 3750)]

/-- Sample body with a negative `body_mass_g`, as in src/test_api.py
`test_predict_endpoint_out_of_range`. -/
def negativeMassPayload : Payload :=
  [(kBillLength, Json.num 500), (kBillDepth, Json.num 18),
   (kFlipper, Json.num 181), (kMass, Json.num (-50))]

/-- Sample body missing `body_mass_g`, as in src/test_api.py
`test_predict_endpoint_missing_field`. -/
def missingFieldPayload : Payload :=
  [(kBillLength, Json.num 39), (kBillDepth, Json.num 18),
   (kFlipper, Json.num 181)]

/-- Sample body with a `bill_length_mm` of exactly 0. -/
def zeroBoundaryPayload : Payload :=
  [(kBillLength, Json.num 0), (kBillDepth, Json.num 18),
   (kFlipper, Json.num 181), (kMass, Json.num 3750)]

/-- The key of the extra field the load generator sends. -/
def kSex : String := "sex"

/-- The extra, non-required field src/locustfile.py adds to every
request body. -/
def maleText : String := "Male"

/-- Extra fields beyond the required four. -/
def extraFields : Payload := [(kSex, Json.str maleText)]

/-- A remote store oracle whose download always succeeds. -/
def gcsTmpPath : String := "/tmp/model-download"

/-- Succeeding fetch oracle. -/
def fetchOk : String → String → Except Unit String :=
  fun _ _ => Except.ok gcsTmpPath

/-- Failing fetch oracle (network error or missing object). -/
def fetchErr : String → String → Except Unit String :=
  fun _ _ => Except.error ()

/-- A sample bucket name. -/
def bucketVal : String := "penguin-bucket"

/-- A sample object key. -/
def blobVal : String := "penguin_model.json"

/-! ## Claim theorems -/

/-- C1: for every request payload containing the four required fields
bill_length_mm, bill_depth_mm, flipper_length_mm, body_mass_g, each
numeric and ≥ 0, POST /predict returns status 200 with a body whose
prediction field is an integer in the set 0, 1, 2. -/
theorem C1_valid_payload_returns_200_class_index
    (m : Model) (p : Payload)
    (h1 : validField p kBillLength) (h2 : validField p kBillDepth)
    (h3 : validField p kFlipper) (h4 : validField p kMass) :
    (Main.predict m p).status = 200 ∧
      ∃ n : ℤ, (Main.predict m p).prediction = some n ∧
        (n = 0 ∨ n = 1 ∨ n = 2) := by
  obtain ⟨a, ha, -⟩ := fieldValue_isSome_of_validField p kBillLength h1
  obtain ⟨b, hb, -⟩ := fieldValue_isSome_of_validField p kBillDepth h2
  obtain ⟨c, hc, -⟩ := fieldValue_isSome_of_validField p kFlipper h3
  obtain ⟨d, hd, -⟩ := fieldValue_isSome_of_validField p kMass h4
  have hv := validate_eq_some p a b c d ha hb hc hd
  rw [predict_of_validate_some m p a b c d hv]
  refine ⟨rfl, ((m.predict [a, b, c, d]).val : ℤ), rfl, ?_⟩
  have hlt : (m.predict [a, b, c, d]).val < 3 := (m.predict [a, b, c, d]).isLt
  omega

/-- Witness for C1 at the concrete valid sample body. -/
theorem C1_witness :
    (Main.predict sampleModel samplePayload).status = 200 ∧
      ∃ n : ℤ, (Main.predict sampleModel samplePayload).prediction = some n ∧
        (n = 0 ∨ n = 1 ∨ n = 2) :=
  C1_valid_payload_returns_200_class_index sampleModel samplePayload
    ⟨Json.num 39, .finite 39, rfl, rfl, by decide⟩
    ⟨Json.num 18, .finite 18, rfl, rfl, by decide⟩
    ⟨Json.num 181, .finite 181, rfl, rfl, by decide⟩
    ⟨Json.num 3750, .finite 3750, rfl, rfl, by decide⟩

/-- C2: for every request payload in which some required field has a
non-numeric value (one Python's float cannot read, so the framework
cannot coerce it), POST /predict rejects the request with status 422
and the classifier is never invoked (in particular no value is
silently coerced). -/
theorem C2_non_numeric_field_rejected_422
    (m : Model) (p : Payload) (k : String) (v : Json)
    (hk : k ∈ requiredFields)
    (hv : lookupKey p k = some v)
    (hnum : coerceFloat v = none) :
    (Main.predict m p).status = 422 ∧ (Main.predict m p).invokedOn = none := by
  have hf : fieldValue p k = none := by simp [fieldValue, hv, hnum]
  rw [predict_of_validate_none m p (validate_eq_none_of_field p k hk hf)]
  exact ⟨rfl, rfl⟩

/-- Witness for C2 at the concrete body whose bill_length_mm is the
string of test_predict_endpoint_invalid_type. -/
theorem C2_witness :
    (Main.predict sampleModel invalidTypePayload).status = 422 ∧
      (Main.predict sampleModel invalidTypePayload).invokedOn = none :=
  C2_non_numeric_field_rejected_422 sampleModel invalidTypePayload
    kBillLength (Json.str invalidText)
    (List.Mem.head _) rfl rfl

/-- C3: for every request payload in which some required field is a
negative number, POST /predict returns status 422, whatever the other
fields hold. -/
theorem C3_negative_field_rejected_422
    (m : Model) (p : Payload) (k : String) (v : Json) (q : PyFloat)
    (hk : k ∈ requiredFields)
    (hv : lookupKey p k = some v)
    (hq : coerceFloat v = some q)
    (hneg : q < 0) :
    (Main.predict m p).status = 422 ∧ (Main.predict m p).invokedOn = none := by
  have hf : fieldValue p k = none := by simp [fieldValue, hv, hq, hneg]
  rw [predict_of_validate_none m p (validate_eq_none_of_field p k hk hf)]
  exact ⟨rfl, rfl⟩

/-- Witness for C3 at the concrete body of
test_predict_endpoint_out_of_range: body_mass_g is -50, every other
field valid. -/
theorem C3_witness :
    (Main.predict sampleModel negativeMassPayload).status = 422 ∧
      (Main.predict sampleModel negativeMassPayload).invokedOn = none :=
  C3_negative_field_rejected_422 sampleModel negativeMassPayload
    kMass (Json.num (-50)) (.finite (-50))
    (by simp [requiredFields]) rfl rfl (by decide)

/-- C4: for every request payload missing one or more of the four
required fields, POST /predict returns status 422 and the classifier
is not invoked. -/
theorem C4_missing_field_rejected_422
    (m : Model) (p : Payload) (k : String)
    (hk : k ∈ requiredFields)
    (hmiss : lookupKey p k = none) :
    (Main.predict m p).status = 422 ∧ (Main.predict m p).invokedOn = none := by
  have hf : fieldValue p k = none := by simp [fieldValue, hmiss]
  rw [predict_of_validate_none m p (validate_eq_none_of_field p k hk hf)]
  exact ⟨rfl, rfl⟩

/-- Witness for C4 at the concrete body of
test_predict_endpoint_missing_field, which lacks body_mass_g. -/
theorem C4_witness :
    (Main.predict sampleModel missingFieldPayload).status = 422 ∧
      (Main.predict sampleModel missingFieldPayload).invokedOn = none :=
  C4_missing_field_rejected_422 sampleModel missingFieldPayload
    kMass (by simp [requiredFields]) rfl

/-- C5: at process start the loader first attempts the remote fetch;
on any failure of the remote fetch (missing configuration included,
which is non-fatal on its own) it falls back to the fixed local path
penguin_model.json; and if the local file does not exist either,
startup aborts instead of serving without a model. -/
theorem C5_model_loader_fallback_chain
    (bucket blob : Option String)
    (fetch : String → String → Except Unit String)
    (localExists : Bool) :
    (∀ path, download_model_from_gcs bucket blob fetch = Except.ok path →
        startup bucket blob fetch localExists = StartupResult.started path) ∧
    (∀ e, download_model_from_gcs bucket blob fetch = Except.error e →
        localExists = true →
        startup bucket blob fetch localExists = StartupResult.started localModelFile) ∧
    (∀ e, download_model_from_gcs bucket blob fetch = Except.error e →
        localExists = false →
        startup bucket blob fetch localExists = StartupResult.aborted) ∧
    (bucket = none →
        download_model_from_gcs bucket blob fetch =
          Except.error LoadError.configMissing) := by
  refine ⟨?_, ?_, ?_, ?_⟩
  · intro path h
    unfold startup
    rw [h]
  · intro e h hl
    simp [startup, h, hl]
  · intro e h hl
    simp [startup, h, hl]
  · intro hb
    subst hb
    rfl

/-- Witness for C5: a succeeding fetch starts with the downloaded
path; missing configuration with a present local file starts with the
local path; a failing fetch with no local file aborts. -/
theorem C5_witness :
    startup (some bucketVal) (some blobVal) fetchOk true =
        StartupResult.started gcsTmpPath ∧
      startup none none fetchErr true =
        StartupResult.started localModelFile ∧
      startup (some bucketVal) (some blobVal) fetchErr false =
        StartupResult.aborted :=
  ⟨(C5_model_loader_fallback_chain (some bucketVal) (some blobVal) fetchOk true).1
      gcsTmpPath rfl,
   (C5_model_loader_fallback_chain none none fetchErr true).2.1
      LoadError.configMissing rfl rfl,
   (C5_model_loader_fallback_chain (some bucketVal) (some blobVal) fetchErr false).2.2.1
      LoadError.gcsFailure rfl rfl⟩

/-- C6: for every validated request, predict assembles the feature
values into the single ordered vector [bill_length_mm, bill_depth_mm,
flipper_length_mm, body_mass_g], the same order the training script
uses to select feature columns, and returns the single predicted
label converted to an integer. -/
theorem C6_feature_vector_order_matches_training
    (m : Model) (p : Payload) (a b c d : PyFloat)
    (h1 : fieldValue p kBillLength = some a)
    (h2 : fieldValue p kBillDepth = some b)
    (h3 : fieldValue p kFlipper = some c)
    (h4 : fieldValue p kMass = some d) :
    Main.predict m p =
      ⟨200, some ((m.predict [a, b, c, d]).val : ℤ), some [a, b, c, d]⟩ ∧
    apiFeatureOrder = trainFeatureColumns :=
  ⟨predict_of_validate_some m p a b c d (validate_eq_some p a b c d h1 h2 h3 h4),
   rfl⟩

/-- Witness for C6 at the concrete valid sample body. -/
theorem C6_witness :
    Main.predict sampleModel samplePayload =
        ⟨200,
          some ((sampleModel.predict
            [.finite 39, .finite 18, .finite 181, .finite 3750]).val : ℤ),
          some [.finite 39, .finite 18, .finite 181, .finite 3750]⟩ ∧
      apiFeatureOrder = trainFeatureColumns :=
  C6_feature_vector_order_matches_training sampleModel samplePayload
    (.finite 39) (.finite 18) (.finite 181) (.finite 3750) rfl rfl rfl rfl

/-- C7: the predict operation is deterministic and keeps no
per-request state: processing a request leaves the process state
unchanged, so the same FeatureVector submitted after any sequence of
other requests yields the identical PredictionResult. -/
theorem C7_predict_deterministic_stateless
    (st : ServerState) (p : Payload) (rs : List Payload) :
    (step st p).2 = st ∧
      serve st (rs ++ [p]) = serve st rs ++ [Main.predict st.model p] := by
  constructor
  · rfl
  · induction rs with
    | nil => simp [serve, step]
    | cons r rs ih => simp [serve, step] at ih ⊢; exact ih

/-- C8: if the model is unexpectedly absent at request time, predict
does not attempt prediction and returns a server error 500 (distinct
from the 422 client error) for every otherwise-valid request
(src/test_api.py handler). -/
theorem C8_absent_model_returns_500
    (p : Payload)
    (h1 : validField p kBillLength) (h2 : validField p kBillDepth)
    (h3 : validField p kFlipper) (h4 : validField p kMass) :
    TestApi.predict none p = ⟨500, none, none⟩ := by
  obtain ⟨a, ha, -⟩ := fieldValue_isSome_of_validField p kBillLength h1
  obtain ⟨b, hb, -⟩ := fieldValue_isSome_of_validField p kBillDepth h2
  obtain ⟨c, hc, -⟩ := fieldValue_isSome_of_validField p kFlipper h3
  obtain ⟨d, hd, -⟩ := fieldValue_isSome_of_validField p kMass h4
  have hv := validate_eq_some p a b c d ha hb hc hd
  unfold TestApi.predict
  rw [hv]

/-- Witness for C8 at the concrete valid sample body. -/
theorem C8_witness :
    TestApi.predict none samplePayload = ⟨500, none, none⟩ :=
  C8_absent_model_returns_500 samplePayload
    ⟨Json.num 39, .finite 39, rfl, rfl, by decide⟩
    ⟨Json.num 18, .finite 18, rfl, rfl, by decide⟩
    ⟨Json.num 181, .finite 181, rfl, rfl, by decide⟩
    ⟨Json.num 3750, .finite 3750, rfl, rfl, by decide⟩

/-- C9: a value of exactly 0 for a required field passes validation:
a payload whose four required fields are numeric and ≥ 0, one of them
exactly 0, is accepted with status 200 and reaches the classifier. -/
theorem C9_zero_value_accepted
    (m : Model) (p : Payload)
    (h1 : validField p kBillLength) (h2 : validField p kBillDepth)
    (h3 : validField p kFlipper) (h4 : validField p kMass)
    (_h0 : ∃ k ∈ requiredFields, ∃ v, lookupKey p k = some v ∧
        coerceFloat v = some 0) :
    (Main.predict m p).status = 200 ∧
      (Main.predict m p).invokedOn.isSome = true := by
  obtain ⟨a, ha, -⟩ := fieldValue_isSome_of_validField p kBillLength h1
  obtain ⟨b, hb, -⟩ := fieldValue_isSome_of_validField p kBillDepth h2
  obtain ⟨c, hc, -⟩ := fieldValue_isSome_of_validField p kFlipper h3
  obtain ⟨d, hd, -⟩ := fieldValue_isSome_of_validField p kMass h4
  have hv := validate_eq_some p a b c d ha hb hc hd
  rw [predict_of_validate_some m p a b c d hv]
  exact ⟨rfl, rfl⟩

/-- Witness for C9 at the concrete body whose bill_length_mm is
exactly 0. -/
theorem C9_witness :
    (Main.predict sampleModel zeroBoundaryPayload).status = 200 ∧
      (Main.predict sampleModel zeroBoundaryPayload).invokedOn.isSome = true :=
  C9_zero_value_accepted sampleModel zeroBoundaryPayload
    ⟨Json.num 0, .finite 0, rfl, rfl, by decide⟩
    ⟨Json.num 18, .finite 18, rfl, rfl, by decide⟩
    ⟨Json.num 181, .finite 181, rfl, rfl, by decide⟩
    ⟨Json.num 3750, .finite 3750, rfl, rfl, by decide⟩
    ⟨kBillLength, List.Mem.head _, Json.num 0, rfl, rfl⟩

/-- C10: unrecognized extra fields are ignored, not rejected: a
payload carrying the four required fields with valid values plus any
additional fields with other keys is accepted, and the extra fields
have no effect on the outcome. -/
theorem C10_extra_fields_ignored
    (m : Model) (p extra : Payload)
    (h1 : validField p kBillLength) (h2 : validField p kBillDepth)
    (h3 : validField p kFlipper) (h4 : validField p kMass)
    (hext : ∀ kv ∈ extra, kv.1 ∉ requiredFields) :
    Main.predict m (p ++ extra) = Main.predict m p ∧
      (Main.predict m (p ++ extra)).status = 200 := by
  have heq : Main.predict m (p ++ extra) = Main.predict m p := by
    unfold Main.predict
    rw [validate_append_extra p extra hext]
  obtain ⟨a, ha, -⟩ := fieldValue_isSome_of_validField p kBillLength h1
  obtain ⟨b, hb, -⟩ := fieldValue_isSome_of_validField p kBillDepth h2
  obtain ⟨c, hc, -⟩ := fieldValue_isSome_of_validField p kFlipper h3
  obtain ⟨d, hd, -⟩ := fieldValue_isSome_of_validField p kMass h4
  have hv := validate_eq_some p a b c d ha hb hc hd
  rw [heq, predict_of_validate_some m p a b c d hv]
  exact ⟨rfl, rfl⟩

/-- Witness for C10: the valid sample body extended with the sex
field the load generator sends. -/
theorem C10_witness :
    Main.predict sampleModel (samplePayload ++ extraFields) =
        Main.predict sampleModel samplePayload ∧
      (Main.predict sampleModel (samplePayload ++ extraFields)).status = 200 :=
  C10_extra_fields_ignored sampleModel samplePayload extraFields
    ⟨Json.num 39, .finite 39, rfl, rfl, by decide⟩
    ⟨Json.num 18, .finite 18, rfl, rfl, by decide⟩
    ⟨Json.num 181, .finite 181, rfl, rfl, by decide⟩
    ⟨Json.num 3750, .finite 3750, rfl, rfl, by decide⟩
    (by
      intro kv hkv
      simp only [extraFields, List.mem_singleton] at hkv
      subst hkv
      simp [requiredFields, kSex, kBillLength, kBillDepth, kFlipper, kMass])
